import Mathlib

/-!
Verification of the people-counter job pipeline (moootid/people-counter).

Shallow embedding of `src/app/video_processor.py`, `src/app/main.py` and
`src/app/models.py`.  Python machine floats (the fps metadata, detection
confidences) are modelled as exact rationals; Python exceptions as
`Except`/`Option`; the job ledger as an `Option Job` single-row store with
transactional commit (a failed commit rolls the row back, as SQLAlchemy's
session does).
-/

namespace PeopleCounter

/-! ## Detector (`VideoProcessor._detect_people_in_frame`) -/

/-- One YOLO detection box: `box.cls.item()` and `box.conf.item()`.
The person class is class `0`; confidence is a machine float, modelled as ℚ. -/
structure Box where
  cls : Nat
  conf : ℚ
deriving DecidableEq, Repr

/-- One element of the `results` list returned by `self.model(frame)`;
`result.boxes` may be `None`. -/
structure YoloResult where
  boxes : Option (List Box)
deriving DecidableEq, Repr

/-- The filter in the inner loop of `_detect_people_in_frame`:
`box.cls.item() == 0 and box.conf.item() > 0.5`. -/
def personDetection (b : Box) : Bool :=
  b.cls == 0 && decide ((1 : ℚ)/2 < b.conf)

/-- The counting loops of `_detect_people_in_frame` (lines 226-239):
`people_count = 0`, then for each result, if `boxes is not None`,
for each box increment when the person filter passes. -/
def detectLoop (results : List YoloResult) : Nat :=
  results.foldl
    (fun acc r =>
      match r.boxes with
      | none => acc
      | some bs => bs.foldl (fun a b => if personDetection b then a + 1 else a) acc)
    0

/-- `_detect_people_in_frame` including its `try/except` (lines 222-243): the
model invocation either returns a result list or raises; any raise is caught
and the function returns `0`.  The embedding is a total function: no exception
escapes to the caller. -/
def detectPeopleInFrame (modelOut : Except String (List YoloResult)) : Nat :=
  match modelOut with
  | Except.error _ => 0
  | Except.ok results => detectLoop results

/-! ## Sampler stride (`_count_people_in_frames`, lines 181-184)

`fps = cap.get(cv2.CAP_PROP_FPS)` (`0.0` when the metadata is missing), then
`frame_interval = max(1, int(fps * 2))`.  Python `int()` on a float truncates
toward zero. -/

/-- Python `int()` on a (rational-modelled) float: truncation toward zero. -/
def pyInt (q : ℚ) : ℤ :=
  if 0 ≤ q then ⌊q⌋ else ⌈q⌉

/-- `frame_interval = max(1, int(fps * 2))` — the stride the code computes. -/
def frameInterval (fps : ℚ) : ℤ :=
  max 1 (pyInt (fps * 2))

/-- Modelled from the spec's words (for comparison with `frameInterval`):
"`interval = max(1, round(fps * SAMPLE_PERIOD_SECONDS))` where
`SAMPLE_PERIOD_SECONDS = 2`". -/
def frameIntervalSpec (fps : ℚ) : ℤ :=
  max 1 (round (fps * 2))

/-! ## Frame loop (`_count_people_in_frames`, lines 186-212) -/

/-- The `while True` loop: `frame_count` starts at `0`, `max_people_count`
starts at `0`; every read frame increments `frame_count`, and frames with
`frame_count % frame_interval == 0` update the running maximum with the
detector's count. -/
def countLoop (detect : α → Nat) (interval : Nat) :
    List α → Nat → Nat → Nat
  | [], _, maxCount => maxCount
  | f :: rest, frameCount, maxCount =>
    if frameCount % interval = 0 then
      countLoop detect interval rest (frameCount + 1) (max maxCount (detect f))
    else
      countLoop detect interval rest (frameCount + 1) maxCount

/-- `_count_people_in_frames` main loop over the decoded frame stream. -/
def countPeopleInFrames (detect : α → Nat) (interval : Nat) (frames : List α) : Nat :=
  countLoop detect interval frames 0 0

/-- The subsequence of frames the Sampler emits, starting the position counter
at `start`: exactly those at positions `≡ 0 (mod interval)`, in stream order. -/
def sampledFrom (interval : Nat) : Nat → List α → List α
  | _, [] => []
  | start, f :: rest =>
    if start % interval = 0 then f :: sampledFrom interval (start + 1) rest
    else sampledFrom interval (start + 1) rest

/-- The emitted samples of a frame stream (positions `0, interval, 2*interval, …`). -/
def samples (interval : Nat) (frames : List α) : List α :=
  sampledFrom interval 0 frames

/-- The whole of `_count_people_in_frames` for an opened capture: `openOk`
is `cap.isOpened()`; when the capture cannot be opened the function raises
`ValueError("Could not open video file")`.  Each element of `modelOuts` is the
model-invocation outcome on one decoded frame; detector errors are absorbed by
`detectPeopleInFrame`, so they never surface here. -/
def countPeopleInFramesRun (openOk : Bool) (fps : ℚ)
    (modelOuts : List (Except String (List YoloResult))) : Except String Nat :=
  if openOk then
    Except.ok (countPeopleInFrames detectPeopleInFrame (frameInterval fps).toNat modelOuts)
  else
    Except.error "Could not open video file"

/-! ## Acquirer cleanup (`_download_video` / `_process_video_sync`) -/

/-- How the fetch that follows temp-file creation in `_download_video` ends:
success, or one of the raising paths (S3 `ClientError`, `NoCredentialsError`,
`requests` failure, …) — all of them re-raise after logging. -/
inductive FetchOutcome where
  | ok
  | err (msg : String)
deriving DecidableEq, Repr

/-- `_download_video` (lines 114-168): `tempfile.NamedTemporaryFile(delete=False)`
is created and closed first; then the fetch runs.  On success the temp path is
returned; on failure the exception propagates.  The `Bool` is whether the temp
file exists on disk when the call returns/raises — it is `true` on every path,
because no `except` branch deletes it. -/
def downloadVideo (fetch : FetchOutcome) : Except String String × Bool :=
  match fetch with
  | FetchOutcome.ok => (Except.ok "tmp.mp4", true)
  | FetchOutcome.err m => (Except.error m, true)

/-- `_process_video_sync` (lines 90-107): `temp_video_path = None`;
`try: temp_video_path = self._download_video(...); ... finally: if
temp_video_path and os.path.exists(temp_video_path): os.remove(...)`.
If `_download_video` raises, the assignment never happened, so the `finally`
block skips removal.  `processing` is the outcome of
`_count_people_in_frames` on the downloaded file.  Returns the pipeline
outcome and whether a temp file is left on disk afterwards. -/
def processVideoSync (fetch : FetchOutcome) (processing : Except String Nat) :
    Except String Nat × Bool :=
  match downloadVideo fetch with
  | (Except.error m, fileOnDisk) => (Except.error m, fileOnDisk)
  | (Except.ok _path, _) =>
    match processing with
    | Except.ok n => (Except.ok n, false)
    | Except.error m => (Except.error m, false)

/-! ## Orchestrator (`process_video_task`, `main.py` lines 317-394) and
the Job record (`models.py`) -/

/-- Job status strings the task writes.  (`models.py` also declares a default
`"pending"`, but `process_video_task` always creates the row with
`status="processing"`.) -/
inductive JobStatus where
  | processing
  | completed
  | failed
deriving DecidableEq, Repr

/-- The `VideoAnalysis` row (`models.py` lines 9-24).  Timestamps are
abstracted to `Nat`; `created_by` to `Nat`. -/
structure Job where
  jobId : String
  videoId : String
  s3Url : String
  status : JobStatus
  peopleCount : Option Nat
  createdAt : Nat
  completedAt : Option Nat
  errorMessage : Option String
  createdBy : Nat
deriving DecidableEq, Repr

/-- The environment a single run of `process_video_task` sees: whether each
database commit succeeds (a failed commit rolls the session back and raises),
whether the row was externally deleted between creation and the terminal
re-read, and the outcome of `video_processor.count_people_in_video`. -/
structure TaskEnv where
  /-- the initial `session.add` + `session.commit` (lines 326-339) succeeds -/
  createOk : Bool
  /-- the row vanishes (external deletion) before the terminal `session.get` -/
  vanish : Bool
  /-- outcome of the Acquirer→Sampler→Detector pipeline (line 353) -/
  pipeline : Except String Nat
  /-- the commit of the completed-update (line 367) succeeds -/
  completedCommitOk : Bool
  /-- `str(e)` of the exception raised when that commit fails -/
  dbErrMsg : String
  /-- the commit of the failed-update (line 387) succeeds -/
  failedCommitOk : Bool
deriving Repr

/-- What a run of the task leaves behind: the ledger row after each of the
two transitions the Orchestrator performs (creation, terminal write), the
final row, and whether the pipeline was started at all. -/
structure TaskResult where
  trace : List (Option Job)
  finalDb : Option Job
  pipelineRan : Bool
deriving DecidableEq, Repr

/-- The row created by lines 329-338: `status="processing"`, `created_at=now`,
result fields unset. -/
def mkInitialJob (jobId videoId s3Url : String) (userId t0 : Nat) : Job :=
  { jobId := jobId
    videoId := videoId
    s3Url := s3Url
    status := JobStatus.processing
    peopleCount := none
    createdAt := t0
    completedAt := none
    errorMessage := none
    createdBy := userId }

/-- The error-path update (lines 379-393): re-read the row; if present, set
`status="failed"`, `error_message=str(e)`, `completed_at=now` and commit — a
failed commit rolls back (row unchanged) and is only logged; if the row is
absent, only log. -/
def writeFailed (db : Option Job) (msg : String) (t1 : Nat) (commitOk : Bool) :
    Option Job :=
  match db with
  | none => none
  | some j =>
    if commitOk then
      some { j with status := JobStatus.failed
                    errorMessage := some msg
                    completedAt := some t1 }
    else
      some j

/-- `process_video_task` (lines 317-394).  `t0`/`t1` are the two
`datetime.utcnow()` readings.  If the initial commit fails the task returns at
once (line 346) with no row written.  Otherwise the pipeline runs; on success
the completed-update re-reads the row (returning if it vanished, lines
360-362) and commits `people_count`, `status="completed"`, `completed_at`; if
that commit raises, or the pipeline itself raised, the error path `writeFailed`
runs with the stringified exception. -/
def processVideoTask (env : TaskEnv) (jobId videoId s3Url : String)
    (userId t0 t1 : Nat) : TaskResult :=
  if env.createOk then
    let created := mkInitialJob jobId videoId s3Url userId t0
    let db : Option Job := if env.vanish then none else some created
    match env.pipeline with
    | Except.ok pc =>
      match db with
      | none =>
        { trace := [some created, none], finalDb := none, pipelineRan := true }
      | some j =>
        if env.completedCommitOk then
          let jc := { j with peopleCount := some pc
                             status := JobStatus.completed
                             completedAt := some t1 }
          { trace := [some created, some jc], finalDb := some jc, pipelineRan := true }
        else
          let db2 := writeFailed db env.dbErrMsg t1 env.failedCommitOk
          { trace := [some created, db2], finalDb := db2, pipelineRan := true }
    | Except.error e =>
      let db2 := writeFailed db e t1 env.failedCommitOk
      { trace := [some created, db2], finalDb := db2, pipelineRan := true }
  else
    { trace := [none], finalDb := none, pipelineRan := false }

/-- The ledger invariant of claim C4, as a decidable check on one row:
`completed_at` set iff terminal, `people_count` set iff completed,
`error_message` set iff failed. -/
def jobInvariantB (j : Job) : Bool :=
  (j.completedAt.isSome == (j.status == JobStatus.completed || j.status == JobStatus.failed)) &&
  (j.peopleCount.isSome == (j.status == JobStatus.completed)) &&
  (j.errorMessage.isSome == (j.status == JobStatus.failed))

/-- The invariant lifted to the (possibly absent) ledger row. -/
def dbInvariantB : Option Job → Bool
  | none => true
  | some j => jobInvariantB j

/-! ## Request surface (`VideoRequest.validate_s3_url`, `analyze_video`) -/

/-- The character class `[a-zA-Z0-9.\-_]` of the bucket part of the pattern. -/
def bucketChar (c : Char) : Bool :=
  c.isAlpha || c.isDigit || c == '.' || c == '-' || c == '_'

/-- `re.match(r^s3://[a-zA-Z0-9.\-_]+/.*, v)` as a Boolean: the string starts
with `s3://`, followed by a nonempty run of bucket characters, followed by
`/`.  (`.*` can match empty and `re.match` does not anchor the end, so
nothing further is constrained; since `/` is not a bucket character, the run
of bucket characters the regex consumes is exactly the maximal one.) -/
def matchS3Pattern (v : String) : Bool :=
  match v.toList with
  | 's' :: '3' :: ':' :: '/' :: '/' :: rest =>
    let bucket := rest.takeWhile bucketChar
    !bucket.isEmpty &&
      (match rest.drop bucket.length with
       | '/' :: _ => true
       | _ => false)
  | _ => false

/-- `re.match(r^https?://.*, v)` as a Boolean: the string starts with
`http://` or `https://` (`.*` matches anything, the empty string included). -/
def matchHttpPattern (v : String) : Bool :=
  match v.toList with
  | 'h' :: 't' :: 't' :: 'p' :: ':' :: '/' :: '/' :: _ => true
  | 'h' :: 't' :: 't' :: 'p' :: 's' :: ':' :: '/' :: '/' :: _ => true
  | _ => false

/-- `VideoRequest.validate_s3_url` (`main.py` lines 130-142): the locator is
accepted iff it matches one of the two patterns; otherwise the validator
raises `ValueError` and pydantic rejects the request. -/
def validateS3Url (v : String) : Bool :=
  matchS3Pattern v || matchHttpPattern v

/-- The `/analyze-video` endpoint flow (lines 203-263) as far as the core is
concerned: pydantic validation of `s3_url` (HTTP 422 on failure, before the
handler body runs), then the user-id check (HTTP 400), then the background
task.  `genId` stands for the `uuid4` used when `video_id` is absent.  A Job
row can only ever be created inside `processVideoTask`. -/
def analyzeVideo (env : TaskEnv) (s3Url : String) (videoId : Option String)
    (user : Option Nat) (jobId genId : String) (t0 t1 : Nat) :
    Except Nat TaskResult :=
  if validateS3Url s3Url then
    match user with
    | none => Except.error 400
    | some uid =>
      Except.ok (processVideoTask env jobId (videoId.getD genId) s3Url uid t0 t1)
  else
    Except.error 422

/-! ## Supporting lemmas -/

lemma foldl_max_eq (m : Nat) (l : List Nat) :
    l.foldl max m = max m (l.foldr max 0) := by
  induction l generalizing m with
  | nil => simp
  | cons a t ih => simp [List.foldl_cons, List.foldr_cons, ih, Nat.max_assoc]

lemma countLoop_eq {α : Type} (detect : α → Nat) (interval : Nat) (frames : List α) :
    ∀ c m, countLoop detect interval frames c m
      = ((sampledFrom interval c frames).map detect).foldl max m := by
  induction frames with
  | nil => intro c m; simp [countLoop, sampledFrom]
  | cons f rest ih =>
    intro c m
    by_cases h : c % interval = 0
    · simp [countLoop, sampledFrom, h, ih]
    · simp [countLoop, sampledFrom, h, ih]

lemma sampledFrom_eq {α : Type} (interval : Nat) (frames : List α) :
    ∀ c, sampledFrom interval c frames
      = ((List.enumFrom c frames).filter (fun p => p.1 % interval == 0)).map Prod.snd := by
  induction frames with
  | nil => intro c; simp [sampledFrom, List.enumFrom]
  | cons f rest ih =>
    intro c
    by_cases h : c % interval = 0
    · simp [sampledFrom, List.enumFrom, h, ih]
    · simp [sampledFrom, List.enumFrom, h, ih]

lemma foldl_personCount (bs : List Box) :
    ∀ acc, bs.foldl (fun a b => if personDetection b then a + 1 else a) acc
      = acc + bs.countP personDetection := by
  induction bs with
  | nil => intro acc; simp
  | cons b t ih =>
    intro acc
    by_cases h : personDetection b
    · simp [List.foldl_cons, h, ih, List.countP_cons]
      omega
    · simp [List.foldl_cons, h, ih, List.countP_cons]

lemma detect_foldl (results : List YoloResult) :
    ∀ acc, results.foldl
        (fun acc r =>
          match r.boxes with
          | none => acc
          | some bs => bs.foldl (fun a b => if personDetection b then a + 1 else a) acc)
        acc
      = acc + ((results.filterMap YoloResult.boxes).flatten.countP personDetection) := by
  induction results with
  | nil => intro acc; simp
  | cons r rest ih =>
    intro acc
    obtain ⟨boxes⟩ := r
    cases boxes with
    | none => simp [List.filterMap_cons, ih]
    | some bs =>
      simp only [List.foldl_cons]
      rw [ih]
      simp [List.filterMap_cons, foldl_personCount, List.countP_append]
      omega

/-! ## Claim theorems -/

/-- C1: the final `people_count` of a processed video equals the maximum, over
exactly the frames emitted at 0-indexed positions `0, interval, 2*interval, …`
in stream order (positions `≡ 0 (mod interval)`), of the per-frame count
returned by the Detector; it is `0` for an empty frame stream; and an opened
video always yields this peak as its result. -/
theorem peak_count_over_sampled_frames {α : Type} (detect : α → Nat)
    (interval : Nat) (frames : List α) (fps : ℚ)
    (outs : List (Except String (List YoloResult))) :
    countPeopleInFrames detect interval frames
        = ((samples interval frames).map detect).foldr max 0
      ∧ samples interval frames
        = (frames.enum.filter (fun p => p.1 % interval == 0)).map Prod.snd
      ∧ countPeopleInFrames detect interval ([] : List α) = 0
      ∧ countPeopleInFramesRun true fps outs
        = Except.ok (countPeopleInFrames detectPeopleInFrame
            (frameInterval fps).toNat outs) := by
  refine ⟨?_, ?_, rfl, rfl⟩
  · rw [countPeopleInFrames, countLoop_eq detect interval frames 0 0, foldl_max_eq]
    simp [samples]
  · simp [samples, sampledFrom_eq, List.enum]

/-- C6: `_detect_people_in_frame` counts exactly the detections whose class is
the person class (`0`) and whose confidence is strictly greater than `0.5`;
the filter excludes every detection at or below the threshold or of another
class. -/
theorem person_count_filter_exact (results : List YoloResult) (b : Box) :
    detectLoop results
        = ((results.filterMap YoloResult.boxes).flatten.countP personDetection)
      ∧ (personDetection b = true ↔ (b.cls = 0 ∧ (1 : ℚ)/2 < b.conf)) := by
  constructor
  · have h := detect_foldl results 0
    simpa [detectLoop] using h
  · simp [personDetection]

/-- C7: the Detector never raises to its caller — the embedding of
`_detect_people_in_frame` is a total function into ℕ; when the model
invocation fails it returns `0` for that frame, and the frame loop of the job
still produces a successful result. -/
theorem detector_never_raises (e : String) (fps : ℚ)
    (outs : List (Except String (List YoloResult))) :
    detectPeopleInFrame (Except.error e) = 0
      ∧ ∃ n, countPeopleInFramesRun true fps outs = Except.ok n :=
  ⟨rfl, ⟨_, rfl⟩⟩

/-- C2 fails as stated: at the (realistic) frame rate `fps = 23.976`, the code
stride `max(1, int(fps * 2))` truncates `47.952` to `47`, while the claimed
`max(1, round(fps * 2))` gives `48`.  (`round` and Python's banker's rounding
agree here — `47.952` is not a tie.) -/
theorem stride_round_counterexample :
    0 < (2997/125 : ℚ)
      ∧ frameInterval (2997/125) = 47
      ∧ frameIntervalSpec (2997/125) = 48
      ∧ frameInterval (2997/125) ≠ frameIntervalSpec (2997/125) := by
  have h1 : frameInterval (2997/125) = 47 := by
    rw [frameInterval, pyInt, if_pos (by norm_num)]
    norm_num
  have h2 : frameIntervalSpec (2997/125) = 48 := by
    rw [frameIntervalSpec, round_eq]
    norm_num
  exact ⟨by norm_num, h1, h2, by rw [h1, h2]; decide⟩

/-- C2 amended: for every positive frame rate the stride equals
`max(1, ⌊fps * 2⌋)` — Python `int()` truncation, not rounding, of `fps * 2` —
and for a non-positive (or missing, reported as `0.0`) frame rate the stride
is `1` (dense sampling), with no failure. -/
theorem stride_truncates_and_defaults_dense (fps : ℚ) :
    (0 < fps → frameInterval fps = max 1 ⌊fps * 2⌋)
      ∧ (fps ≤ 0 → frameInterval fps = 1) := by
  constructor
  · intro h
    rw [frameInterval, pyInt, if_pos (by positivity)]
  · intro h
    rw [frameInterval, pyInt]
    by_cases h0 : (0 : ℚ) ≤ fps * 2
    · have hz : fps * 2 = 0 := le_antisymm (by nlinarith) h0
      rw [if_pos h0, hz]
      simp
    · rw [if_neg h0]
      have hc : ⌈fps * 2⌉ ≤ 0 := by
        rw [Int.ceil_le]
        push_cast
        nlinarith
      omega

/-- Witness for the amended C2 theorem at `fps = 3` and `fps = -1`. -/
theorem stride_truncates_witness :
    frameInterval 3 = max 1 ⌊(3 : ℚ) * 2⌋ ∧ frameInterval (-1) = 1 :=
  ⟨(stride_truncates_and_defaults_dense 3).1 (by norm_num),
   (stride_truncates_and_defaults_dense (-1)).2 (by norm_num)⟩

/-- C3 fails on the code: when the fetch inside `_download_video` raises after
the temporary file was created (e.g. an S3 `NoSuchKey` error), the exception
propagates before `temp_video_path` is assigned in `_process_video_sync`, so
the `finally` block skips removal and the temporary file is left on disk.
Cleanup does happen on every path where acquisition returned a path,
including Sampler/Detector errors. -/
theorem temp_file_leaked_on_failed_download :
    (processVideoSync (FetchOutcome.err "NoSuchKey") (Except.ok 0)).2 = true
      ∧ ∀ processing, (processVideoSync FetchOutcome.ok processing).2 = false := by
  refine ⟨rfl, fun processing => ?_⟩
  cases processing <;> rfl

/-- C4: after every transition `process_video_task` performs on the Job row —
creation and the terminal write, on every environment (commit failures, a
vanished row, any pipeline outcome) — `completed_at` is set iff the status is
terminal, `people_count` is set iff the status is `completed`, and
`error_message` is set iff the status is `failed`. -/
theorem job_record_field_invariant (env : TaskEnv) (jobId videoId s3Url : String)
    (userId t0 t1 : Nat) :
    ((processVideoTask env jobId videoId s3Url userId t0 t1).trace.all
      dbInvariantB) = true := by
  obtain ⟨co, vz, pl, cco, dbe, fco⟩ := env
  cases co <;> cases vz <;> cases pl <;> cases cco <;> cases fco <;>
    simp [processVideoTask, mkInitialJob, writeFailed, dbInvariantB, jobInvariantB]

/-- C5: any unhandled pipeline error (acquisition or sampling) reaching the
Orchestrator is caught and persisted as `status="failed"` with the stringified
error in `error_message` and `completed_at` set; and a run whose video opened
— whatever the per-frame model outcomes, i.e. any Detector-internal errors —
produces a `completed` record, never the failed transition. -/
theorem failure_transition_and_detector_absorption :
    (∀ (env : TaskEnv) (jobId videoId s3Url : String) (userId t0 t1 : Nat)
       (e : String),
      env.createOk = true → env.vanish = false → env.failedCommitOk = true →
      env.pipeline = Except.error e →
      (processVideoTask env jobId videoId s3Url userId t0 t1).finalDb
        = some { mkInitialJob jobId videoId s3Url userId t0 with
                 status := JobStatus.failed
                 errorMessage := some e
                 completedAt := some t1 })
    ∧ (∀ (env : TaskEnv) (jobId videoId s3Url : String) (userId t0 t1 : Nat)
         (fps : ℚ) (outs : List (Except String (List YoloResult))),
        env.createOk = true → env.vanish = false → env.completedCommitOk = true →
        env.pipeline = countPeopleInFramesRun true fps outs →
        (processVideoTask env jobId videoId s3Url userId t0 t1).finalDb
          = some { mkInitialJob jobId videoId s3Url userId t0 with
                   status := JobStatus.completed
                   peopleCount := some (countPeopleInFrames detectPeopleInFrame
                     (frameInterval fps).toNat outs)
                   completedAt := some t1 }) := by
  constructor
  · intro env jobId videoId s3Url userId t0 t1 e hc hv hf hp
    obtain ⟨co, vz, pl, cco, dbe, fco⟩ := env
    simp only at hc hv hf hp
    subst hc hv hf hp
    simp [processVideoTask, writeFailed]
  · intro env jobId videoId s3Url userId t0 t1 fps outs hc hv hcc hp
    obtain ⟨co, vz, pl, cco, dbe, fco⟩ := env
    simp only at hc hv hcc hp
    subst hc hv hcc hp
    simp [processVideoTask, countPeopleInFramesRun]

/-- Witness for C5 at concrete inputs: a pipeline that raised `"boom"` ends in
a `failed` record carrying that message, and a run over one frame whose model
invocation failed ends `completed` with `people_count = 0`. -/
theorem failure_transition_witness :
    (processVideoTask ⟨true, false, Except.error "boom", true, "db", true⟩
        "j" "v" "s3://b/k" 1 10 20).finalDb
      = some { mkInitialJob "j" "v" "s3://b/k" 1 10 with
               status := JobStatus.failed
               errorMessage := some "boom"
               completedAt := some 20 }
    ∧ (processVideoTask
          ⟨true, false, countPeopleInFramesRun true 1 [Except.error "model down"],
           true, "db", true⟩ "j" "v" "s3://b/k" 1 10 20).finalDb
      = some { mkInitialJob "j" "v" "s3://b/k" 1 10 with
               status := JobStatus.completed
               peopleCount := some (countPeopleInFrames detectPeopleInFrame
                 (frameInterval 1).toNat [Except.error "model down"])
               completedAt := some 20 } :=
  ⟨failure_transition_and_detector_absorption.1 _ "j" "v" "s3://b/k" 1 10 20
      "boom" rfl rfl rfl rfl,
   failure_transition_and_detector_absorption.2 _ "j" "v" "s3://b/k" 1 10 20
      1 [Except.error "model down"] rfl rfl rfl rfl⟩

/-- C8: a locator matching neither the object-storage pattern
(`s3://bucket-name/object-key`) nor the generic network pattern
(`http(s)://…`) is rejected by the request validator with HTTP 422 before the
handler runs, so the background task is never scheduled and no Job row is
ever created (rows are only created inside `processVideoTask`). -/
theorem malformed_locator_rejected (env : TaskEnv) (v : String)
    (videoId : Option String) (user : Option Nat) (jobId genId : String)
    (t0 t1 : Nat) (hs3 : matchS3Pattern v = false)
    (hhttp : matchHttpPattern v = false) :
    analyzeVideo env v videoId user jobId genId t0 t1 = Except.error 422 := by
  simp [analyzeVideo, validateS3Url, hs3, hhttp]

/-- Witness for C8 at the malformed locator `ftp://bucket/key.mp4`. -/
theorem malformed_locator_rejected_witness :
    analyzeVideo ⟨true, false, Except.ok 0, true, "db", true⟩
        "ftp://bucket/key.mp4" none (some 1) "j" "g" 0 1
      = Except.error 422 :=
  malformed_locator_rejected _ _ _ _ _ _ _ _ (by decide) (by decide)

/-- C9: when the initial persist of the Job row fails, the task returns at
once: the ledger never holds a row (no partial record), the pipeline is never
started, and the only recorded trace state is the absent row — the failure is
swallowed, not recorded. -/
theorem initial_persist_failure_abandons_job (env : TaskEnv)
    (jobId videoId s3Url : String) (userId t0 t1 : Nat)
    (h : env.createOk = false) :
    (processVideoTask env jobId videoId s3Url userId t0 t1).finalDb = none
      ∧ (processVideoTask env jobId videoId s3Url userId t0 t1).pipelineRan = false
      ∧ (processVideoTask env jobId videoId s3Url userId t0 t1).trace = [none] := by
  simp [processVideoTask, h]

/-- Witness for C9: a run whose initial commit fails leaves no row and never
runs the pipeline. -/
theorem initial_persist_failure_witness :
    (processVideoTask ⟨false, false, Except.ok 3, true, "db", true⟩
        "j" "v" "s3://b/k" 1 10 20).finalDb = none
      ∧ (processVideoTask ⟨false, false, Except.ok 3, true, "db", true⟩
          "j" "v" "s3://b/k" 1 10 20).pipelineRan = false
      ∧ (processVideoTask ⟨false, false, Except.ok 3, true, "db", true⟩
          "j" "v" "s3://b/k" 1 10 20).trace = [none] :=
  initial_persist_failure_abandons_job _ "j" "v" "s3://b/k" 1 10 20 rfl

/-- C10: if the row has vanished when the terminal update re-reads it by
`job_id`, the task writes nothing, raises nothing (the embedding is total),
and does not recreate the row — the final ledger state is still empty even
though the pipeline ran, for either pipeline outcome. -/
theorem vanished_record_skipped_on_terminal_write (env : TaskEnv)
    (jobId videoId s3Url : String) (userId t0 t1 : Nat)
    (hc : env.createOk = true) (hv : env.vanish = true) :
    (processVideoTask env jobId videoId s3Url userId t0 t1).finalDb = none
      ∧ (processVideoTask env jobId videoId s3Url userId t0 t1).pipelineRan = true := by
  obtain ⟨co, vz, pl, cco, dbe, fco⟩ := env
  simp only at hc hv
  subst hc hv
  cases pl <;> simp [processVideoTask, writeFailed]

/-- Witness for C10: with the row externally deleted, a successful pipeline
run ends with no row written. -/
theorem vanished_record_skipped_witness :
    (processVideoTask ⟨true, true, Except.ok 5, true, "db", true⟩
        "j" "v" "s3://b/k" 1 10 20).finalDb = none
      ∧ (processVideoTask ⟨true, true, Except.ok 5, true, "db", true⟩
          "j" "v" "s3://b/k" 1 10 20).pipelineRan = true :=
  vanished_record_skipped_on_terminal_write _ "j" "v" "s3://b/k" 1 10 20 rfl rfl

end PeopleCounter
